import Mathlib

/-!
Shallow embedding of the Voice Evaluation Microservice
(src/services/pause_analysis.py, pronunciation.py, pacing.py,
transcription.py, feedback_generator.py, src/main.py, src/config.py,
src/models.py), together with theorems settling the specification claims.

Python floats are modelled as rationals; the Python built-in `round`
(round-half-to-even) is modelled by `rintHE` / `round2`.
-/

namespace VoiceEval

/-- Round-half-to-even to an integer, modelling the Python built-in `round(x)`. -/
def rintHE (q : ℚ) : ℤ :=
  if q - ⌊q⌋ < 1/2 then ⌊q⌋
  else if 1/2 < q - ⌊q⌋ then ⌊q⌋ + 1
  else if ⌊q⌋ % 2 = 0 then ⌊q⌋ else ⌊q⌋ + 1

/-- Round to 2 decimal places, modelling the Python `round(x, 2)`. -/
def round2 (q : ℚ) : ℚ := (rintHE (100 * q) : ℚ) / 100

/-- src/models.py WordMetadata: one word of the canonical transcript shape
produced by `parse_transcription_result` (keys word/start/end/confidence). -/
structure WordMetadata where
  word : String
  start : ℚ
  «end» : ℚ
  confidence : ℚ
deriving Repr, DecidableEq

/-- src/config.py Config.PAUSE_THRESHOLD = 0.5 seconds. -/
def PAUSE_THRESHOLD : ℚ := 1/2

/-- src/config.py Config.PRONUNCIATION_THRESHOLD = 0.85. -/
def PRONUNCIATION_THRESHOLD : ℚ := 85/100

/-- src/config.py Config.SLOW_WPM_THRESHOLD = 90. -/
def SLOW_WPM_THRESHOLD : ℤ := 90

/-- src/config.py Config.FAST_WPM_THRESHOLD = 150. -/
def FAST_WPM_THRESHOLD : ℤ := 150

/-- src/models.py PauseResponse. -/
structure PauseResponse where
  pause_count : ℕ
  total_pause_time_sec : ℚ
  pause_feedback : String
deriving Repr, DecidableEq

/-- The loop `for i in range(1, len(words)): words[i]["start"] - words[i-1]["end"]`
in analyze_pauses (src/services/pause_analysis.py lines 17-21): the list of
gaps between consecutive words, in order. -/
def adjacentGaps : List WordMetadata → List ℚ
  | w1 :: w2 :: rest => (w2.start - w1.«end») :: adjacentGaps (w2 :: rest)
  | _ => []

/-- src/services/pause_analysis.py, PauseAnalyzer.analyze_pauses. -/
def analyze_pauses (words : List WordMetadata) : PauseResponse :=
  if words.length < 2 then
    { pause_count := 0
      total_pause_time_sec := 0
      pause_feedback := "Insufficient data for pause analysis." }
  else
    let pauses := (adjacentGaps words).filter (fun g => PAUSE_THRESHOLD < g)
    let pause_count := pauses.length
    let total_pause_time := pauses.sum
    let feedback :=
      if pause_count = 0 then
        "Great! Your speech flows smoothly without long pauses."
      else if pause_count ≤ 2 then
        "Good fluency with minimal pauses."
      else if pause_count ≤ 4 then
        "Try to reduce long pauses to improve fluency."
      else
        "Your speech has many long pauses. Practice speaking more continuously."
    { pause_count := pause_count
      total_pause_time_sec := round2 total_pause_time
      pause_feedback := feedback }

/-- src/models.py MispronuncedWord. -/
structure MispronuncedWord where
  word : String
  start : ℚ
  confidence : ℚ
deriving Repr, DecidableEq

/-- src/models.py PronunciationResponse. -/
structure PronunciationResponse where
  pronunciation_score : ℤ
  mispronounced_words : List MispronuncedWord
deriving Repr, DecidableEq

/-- src/services/pronunciation.py, PronunciationAnalyzer.analyze_pronunciation. -/
def analyze_pronunciation (words : List WordMetadata) : PronunciationResponse :=
  if words.isEmpty then
    { pronunciation_score := 0, mispronounced_words := [] }
  else
    let total_confidence := (words.map (fun w => w.confidence)).sum
    let avg_confidence := total_confidence / words.length
    let pronunciation_score := rintHE (avg_confidence * 100)
    let mispronounced_words :=
      (words.filter (fun w => w.confidence < PRONUNCIATION_THRESHOLD)).map
        (fun w => MispronuncedWord.mk w.word w.start w.confidence)
    { pronunciation_score := pronunciation_score
      mispronounced_words := mispronounced_words }

/-- src/models.py PacingResponse. -/
structure PacingResponse where
  pacing_wpm : ℤ
  pacing_feedback : String
deriving Repr, DecidableEq

/-- src/services/pacing.py, PacingAnalyzer.analyze_pacing. -/
def analyze_pacing (words : List WordMetadata) (audio_duration : ℚ) : PacingResponse :=
  if words.isEmpty ∨ audio_duration = 0 then
    { pacing_wpm := 0, pacing_feedback := "Unable to calculate pacing." }
  else
    let total_words : ℚ := words.length
    let duration_minutes := audio_duration / 60
    let wpm := rintHE (total_words / duration_minutes)
    let feedback :=
      if wpm < SLOW_WPM_THRESHOLD then
        "Your speaking pace is too slow. Try to speak a bit faster."
      else if FAST_WPM_THRESHOLD < wpm then
        "Your speaking pace is too fast. Try to slow down a bit."
      else
        "Your speaking pace is appropriate."
    { pacing_wpm := wpm, pacing_feedback := feedback }

/-- Provider per-word record as returned by AssemblyAI (keys
text/start/end/confidence, start and end in milliseconds). -/
structure ProviderWord where
  text : String
  start : ℚ
  «end» : ℚ
  confidence : ℚ
deriving Repr, DecidableEq

/-- The provider transcription result consumed by
parse_transcription_result: the text field is required (result["text"]),
audio_duration is optional (result.get("audio_duration", 0)). -/
structure ProviderResult where
  text : String
  words : List ProviderWord
  audio_duration : Option ℚ
deriving Repr, DecidableEq

/-- src/models.py TranscriptionResponse. -/
structure TranscriptionResponse where
  transcript : String
  words : List WordMetadata
  audio_duration_sec : ℚ
deriving Repr, DecidableEq

/-- src/services/transcription.py, TranscriptionService.parse_transcription_result. -/
def parse_transcription_result (result : ProviderResult) : TranscriptionResponse :=
  let words := result.words.map (fun word_data =>
    { word := word_data.text
      start := word_data.start / 1000
      «end» := word_data.«end» / 1000
      confidence := word_data.confidence : WordMetadata })
  { transcript := result.text
    words := words
    audio_duration_sec := (result.audio_duration.getD 0) / 1000 }

/-- src/services/transcription.py: the audio_mime_types table set in
TranscriptionService.__init__ (canonical extension to media type). -/
def audio_mime_types : List (String × String) :=
  [(".mp3", "audio/mpeg"), (".wav", "audio/wav"), (".flac", "audio/flac"),
   (".ogg", "audio/ogg"), (".m4a", "audio/mp4")]

/-- The content type of the multipart files payload, paired with the
effective_mime_type variable, as computed inside upload_file
(src/services/transcription.py lines 53-84): effective_mime_type is the
table entry for the lowercased extension, falling back to the caller
guess, but files_payload is built from the caller-supplied mime_type
parameter. Returns (effective_mime_type, content type put in the payload). -/
def upload_file_mime_decision (file_extension : String) (mime_type : String) :
    String × String :=
  let effective_mime_type := (audio_mime_types.lookup file_extension).getD mime_type
  let files_payload_content_type := mime_type
  (effective_mime_type, files_payload_content_type)

/-- One network interaction of a single upload attempt, as seen by
upload_file: either an HTTP response (status code, body text, and the
optional upload_url field of the response JSON), or an httpx.ReadError,
or an httpx.TimeoutException. -/
inductive HttpUploadReply where
  | response (status_code : ℕ) (body : String) (upload_url : Option String)
  | readError (msg : String)
  | timeoutError (msg : String)
deriving Repr, DecidableEq

/-- Outcome of one upload_file call: a returned upload URL, a propagated
httpx.ReadError (the only transient kind, re-raised unchanged to trigger
the retry logic), or any other exception with its message. -/
inductive UploadOutcome where
  | ok (upload_url : String)
  | transientReadError (msg : String)
  | failure (msg : String)
deriving Repr, DecidableEq

/-- src/services/transcription.py, TranscriptionService.upload_file, as a
function of the API-key configuration flag and the network reply for this
attempt. Exceptions raised inside the try block are wrapped by the final
handler into "File upload error: ..."; httpx.ReadError is re-raised
unchanged; httpx.TimeoutException is turned into the upload-timeout
message. -/
def upload_file (api_key_configured : Bool) (reply : HttpUploadReply) : UploadOutcome :=
  if api_key_configured = false then
    UploadOutcome.failure "AssemblyAI API key not configured"
  else
    match reply with
    | HttpUploadReply.readError msg => UploadOutcome.transientReadError msg
    | HttpUploadReply.timeoutError _ =>
        UploadOutcome.failure
          "Upload timeout - try with a smaller file or check your connection"
    | HttpUploadReply.response status_code body upload_url =>
        if status_code = 401 then
          UploadOutcome.failure "File upload error: Invalid AssemblyAI API key"
        else if status_code = 413 then
          UploadOutcome.failure "File upload error: File too large for AssemblyAI"
        else if status_code = 429 then
          UploadOutcome.failure
            "File upload error: Rate limit exceeded - please try again later"
        else if status_code ≠ 200 ∧ status_code ≠ 201 then
          UploadOutcome.failure
            ("File upload error: Upload failed: " ++ toString status_code ++ " - " ++ body)
        else
          match upload_url with
          | none =>
              UploadOutcome.failure
                "File upload error: No upload URL returned from AssemblyAI"
          | some url => UploadOutcome.ok url

/-- src/services/transcription.py: self.max_retries = 3. -/
def max_retries : ℕ := 3

/-- Observable run of upload_file_with_retry: the final outcome (upload
URL or exception message) and the asyncio.sleep durations performed, in
order. -/
structure RetryRun where
  result : Except String String
  sleeps : List ℕ
deriving Repr

/-- The body of the `for attempt in range(self.max_retries)` loop of
upload_file_with_retry (src/services/transcription.py lines 23-36),
with fuel = max_retries - attempt. The fuel-exhausted case corresponds to
the loop falling through, which the source cannot reach (the last attempt
either returns or raises). On httpx.ReadError at the last attempt the
loop raises the exhaustion error wrapping the last message; otherwise it
sleeps 2 ** attempt seconds and retries; any other exception is re-raised
immediately. -/
def upload_file_with_retry_aux (api_key_configured : Bool)
    (replies : ℕ → HttpUploadReply) :
    (fuel : ℕ) → (attempt : ℕ) → (sleeps : List ℕ) → RetryRun
  | 0, _, sleeps => ⟨Except.error "upload loop fell through", sleeps.reverse⟩
  | fuel + 1, attempt, sleeps =>
    match upload_file api_key_configured (replies attempt) with
    | UploadOutcome.ok url => ⟨Except.ok url, sleeps.reverse⟩
    | UploadOutcome.transientReadError msg =>
        if attempt = max_retries - 1 then
          ⟨Except.error ("File upload failed after " ++ toString max_retries
              ++ " attempts: " ++ msg), sleeps.reverse⟩
        else
          upload_file_with_retry_aux api_key_configured replies fuel (attempt + 1)
            (2 ^ attempt :: sleeps)
    | UploadOutcome.failure msg => ⟨Except.error msg, sleeps.reverse⟩

/-- src/services/transcription.py, TranscriptionService.upload_file_with_retry,
over the sequence of network replies indexed by attempt number. -/
def upload_file_with_retry (api_key_configured : Bool)
    (replies : ℕ → HttpUploadReply) : RetryRun :=
  upload_file_with_retry_aux api_key_configured replies max_retries 0 []

/-- One status-request reply as seen by _poll_transcript: a non-200 HTTP
response, or a 200 response whose JSON status field is completed (with the
full provider result), error (with the optional error detail field),
queued, processing, or some other string. -/
inductive PollReply where
  | httpFailure (status_code : ℕ) (text : String)
  | completed (result : ProviderResult)
  | errored (error_detail : Option String)
  | queued
  | processing
  | unknown (status : String)
deriving Repr, DecidableEq

/-- Observable run of _poll_transcript: the outcome (full provider result
or exception message), the number of status requests issued, and the
asyncio.sleep durations performed, in order. -/
structure PollRun where
  result : Except String ProviderResult
  requests : ℕ
  sleeps : List ℕ
deriving Repr

/-- src/services/transcription.py: max_attempts = 60 in _poll_transcript. -/
def poll_max_attempts : ℕ := 60

/-- The `while attempt < max_attempts` loop of _poll_transcript
(src/services/transcription.py lines 155-192), with
fuel = max_attempts - attempt; requests counts status requests issued so
far and indexes into the reply sequence. Non-200 responses and unknown
status values are wrapped by the generic handler of the loop into
"Polling error: ..."; a provider error status raises
"Transcription failed: ..." which that handler re-raises unchanged;
queued and processing sleep 1 second and increment the attempt counter;
falling out of the loop raises the transcription-timeout error. -/
def poll_transcript_aux (replies : ℕ → PollReply) :
    (fuel : ℕ) → (requests : ℕ) → (sleeps : List ℕ) → PollRun
  | 0, requests, sleeps =>
    ⟨Except.error "Transcription timeout - process took too long",
      requests, sleeps.reverse⟩
  | fuel + 1, requests, sleeps =>
    match replies requests with
    | PollReply.httpFailure status_code text =>
        ⟨Except.error ("Polling error: Polling failed: " ++ toString status_code
            ++ " - " ++ text), requests + 1, sleeps.reverse⟩
    | PollReply.completed result => ⟨Except.ok result, requests + 1, sleeps.reverse⟩
    | PollReply.errored error_detail =>
        ⟨Except.error ("Transcription failed: "
            ++ error_detail.getD "Unknown transcription error"),
          requests + 1, sleeps.reverse⟩
    | PollReply.queued => poll_transcript_aux replies fuel (requests + 1) (1 :: sleeps)
    | PollReply.processing => poll_transcript_aux replies fuel (requests + 1) (1 :: sleeps)
    | PollReply.unknown status =>
        ⟨Except.error ("Polling error: Unknown status: " ++ status),
          requests + 1, sleeps.reverse⟩

/-- src/services/transcription.py, TranscriptionService._poll_transcript,
over the sequence of status-request replies indexed by request number. -/
def poll_transcript (replies : ℕ → PollReply) : PollRun :=
  poll_transcript_aux replies poll_max_attempts 0 []

/-- src/services/feedback_generator.py: the static fallback string
returned when the Gemini call raises. -/
def FALLBACK_FEEDBACK : String :=
  "Could not generate detailed feedback at this moment. Please try again later."

/-- Abstraction of the Gemini prompt string assembled inside
generate_feedback (the long f-string template is abbreviated; only the
data flow from the three metric records into the prompt is kept). -/
def feedback_prompt (pronunciation : PronunciationResponse)
    (pacing : PacingResponse) (pauses : PauseResponse) : String :=
  "Generate detailed, constructive, and encouraging feedback for a speaker."
    ++ " Pronunciation score: " ++ toString pronunciation.pronunciation_score
    ++ " WPM: " ++ toString pacing.pacing_wpm
    ++ " Pause count: " ++ toString pauses.pause_count

/-- src/services/feedback_generator.py, FeedbackGenerator.generate_feedback:
the generative-text capability is a function that either returns the
generated text or raises (Except.error); a raise is caught and replaced by
the static fallback string. -/
def generate_feedback (generate : String → Except String String)
    (pronunciation : PronunciationResponse) (pacing : PacingResponse)
    (pauses : PauseResponse) : String :=
  match generate (feedback_prompt pronunciation pacing pauses) with
  | Except.ok feedback => feedback
  | Except.error _ => FALLBACK_FEEDBACK

/-- src/models.py VoiceEvaluationResponse. -/
structure VoiceEvaluationResponse where
  transcription : TranscriptionResponse
  pronunciation : PronunciationResponse
  pacing : PacingResponse
  pauses : PauseResponse
  text_feedback : String
deriving Repr

/-- Environment of one background job: the outcomes of the fallible
external stages (upload_file_with_retry and transcribe_audio, i.e.
submit-and-poll) and the generative-text capability used by
generate_feedback. -/
structure TaskEnv where
  upload : Except String String
  transcribe : String → Except String ProviderResult
  generate : String → Except String String

/-- The try-block body of process_audio_task (src/main.py lines 60-114):
upload, transcribe, parse, the three analyses, feedback, response
assembly. An exception in a stage (Except.error) short-circuits the rest
of the body. -/
def process_audio_body (env : TaskEnv) : Except String VoiceEvaluationResponse := do
  let upload_url ← env.upload
  let transcription_result ← env.transcribe upload_url
  let parsed_result := parse_transcription_result transcription_result
  let pronunciation_result := analyze_pronunciation parsed_result.words
  let pacing_result := analyze_pacing parsed_result.words parsed_result.audio_duration_sec
  let pause_result := analyze_pauses parsed_result.words
  let text_feedback :=
    generate_feedback env.generate pronunciation_result pacing_result pause_result
  Except.ok
    { transcription := parsed_result
      pronunciation := pronunciation_result
      pacing := pacing_result
      pauses := pause_result
      text_feedback := text_feedback }

/-- src/main.py, process_audio_task: runs the body; the except clause
re-raises, and the finally clause deletes the uploaded file
(`if os.path.exists(file_path): os.remove(file_path)`) on both paths.
Takes the file-existence state before the task and returns the body
outcome together with the file-existence state after the task. -/
def process_audio_task (env : TaskEnv) (file_exists : Bool) :
    Except String VoiceEvaluationResponse × Bool :=
  let result := process_audio_body env
  (result, if file_exists then false else file_exists)

example : rintHE (75 : ℚ) = 75 := by norm_num [rintHE]
example : round2 (3/5 : ℚ) = 3/5 := by norm_num [round2, rintHE]
example : analyze_pacing [⟨"a", 0, 3/10, 9/10⟩, ⟨"b", 9/10, 12/10, 6/10⟩] (12/10)
    = ⟨100, "Your speaking pace is appropriate."⟩ := by
  norm_num [analyze_pacing, rintHE, SLOW_WPM_THRESHOLD, FAST_WPM_THRESHOLD]
example : analyze_pauses [⟨"a", 0, 3/10, 9/10⟩, ⟨"b", 9/10, 12/10, 6/10⟩]
    = ⟨1, 3/5, "Good fluency with minimal pauses."⟩ := by
  norm_num [analyze_pauses, adjacentGaps, PAUSE_THRESHOLD, round2, rintHE, List.filter]
example : analyze_pronunciation [⟨"a", 0, 3/10, 9/10⟩, ⟨"b", 9/10, 12/10, 6/10⟩]
    = ⟨75, [⟨"b", 9/10, 6/10⟩]⟩ := by
  norm_num [analyze_pronunciation, rintHE, PRONUNCIATION_THRESHOLD, List.filter]

/-- Half-even rounding never goes below the floor. -/
theorem floor_le_rintHE (q : ℚ) : ⌊q⌋ ≤ rintHE q := by
  unfold rintHE
  split_ifs <;> omega

/-- Half-even rounding of a non-negative rational is non-negative. -/
theorem rintHE_nonneg (q : ℚ) (h : 0 ≤ q) : 0 ≤ rintHE q := by
  have h0 : (0 : ℤ) ≤ ⌊q⌋ := Int.le_floor.mpr (by exact_mod_cast h)
  exact le_trans h0 (floor_le_rintHE q)

/-- The gap list of the analyze_pauses loop is the zipWith over adjacent
pairs of the word sequence. -/
theorem adjacentGaps_eq_zipWith (ws : List WordMetadata) :
    adjacentGaps ws = List.zipWith (fun a b => b.start - a.«end») ws ws.tail := by
  induction ws with
  | nil => rfl
  | cons w tl ih =>
    cases tl with
    | nil => rfl
    | cons w2 rest => simpa [adjacentGaps] using ih

/-- C1: for every upload whose extension is in the override table, the
media type sent in the multipart body is claimed to be the table entry;
the code instead always places the caller-supplied guess in
files_payload. At extension ".flac" with guess "audio/wav" the table
entry "audio/flac" is computed as effective_mime_type yet "audio/wav" is
what the payload carries. -/
theorem C1_mime_override_not_sent :
    (∀ (file_extension mime_type : String),
        (upload_file_mime_decision file_extension mime_type).2 = mime_type)
    ∧ (upload_file_mime_decision ".flac" "audio/wav").1 = "audio/flac"
    ∧ (upload_file_mime_decision ".flac" "audio/wav").2 = "audio/wav"
    ∧ (upload_file_mime_decision ".flac" "audio/wav").2
        ≠ (upload_file_mime_decision ".flac" "audio/wav").1 := by
  refine ⟨fun _ _ => rfl, rfl, rfl, ?_⟩
  decide

/-- C5: analyze_pronunciation returns score 0 and an empty mispronounced
list on the empty sequence; otherwise the score is
round(mean confidence × 100) and the mispronounced list is exactly the
words with confidence strictly below 0.85, as {word, start, confidence},
in input order. -/
theorem C5_pronunciation_score :
    ∀ (words : List WordMetadata),
      (words = [] →
        analyze_pronunciation words
          = { pronunciation_score := 0, mispronounced_words := [] })
      ∧ (words ≠ [] →
          (analyze_pronunciation words).pronunciation_score
            = rintHE ((words.map (fun w => w.confidence)).sum / words.length * 100)
          ∧ (analyze_pronunciation words).mispronounced_words
            = (words.filter (fun w => w.confidence < 85/100)).map
                (fun w => { word := w.word, start := w.start, confidence := w.confidence })) := by
  intro words
  constructor
  · intro h; subst h; rfl
  · intro h
    cases words with
    | nil => exact absurd rfl h
    | cons w tl => exact ⟨rfl, rfl⟩

/-- C5 witness: the two-word example evaluates through the theorem. -/
theorem C5_pronunciation_score_witness :
    ([⟨"a", 0, 3/10, 9/10⟩, ⟨"b", 9/10, 12/10, 6/10⟩] : List WordMetadata) ≠ []
    ∧ (analyze_pronunciation [⟨"a", 0, 3/10, 9/10⟩, ⟨"b", 9/10, 12/10, 6/10⟩]).pronunciation_score
        = rintHE ((([⟨"a", 0, 3/10, 9/10⟩, ⟨"b", 9/10, 12/10, 6/10⟩] : List WordMetadata).map
            (fun w => w.confidence)).sum / 2 * 100)
    ∧ (analyze_pronunciation [⟨"a", 0, 3/10, 9/10⟩, ⟨"b", 9/10, 12/10, 6/10⟩]).mispronounced_words
        = (([⟨"a", 0, 3/10, 9/10⟩, ⟨"b", 9/10, 12/10, 6/10⟩] : List WordMetadata).filter
            (fun w => w.confidence < 85/100)).map
            (fun w => { word := w.word, start := w.start, confidence := w.confidence }) :=
  ⟨by decide,
    ((C5_pronunciation_score [⟨"a", 0, 3/10, 9/10⟩, ⟨"b", 9/10, 12/10, 6/10⟩]).2 (by decide)).1,
    ((C5_pronunciation_score [⟨"a", 0, 3/10, 9/10⟩, ⟨"b", 9/10, 12/10, 6/10⟩]).2 (by decide)).2⟩

/-- analyze_pacing on a non-empty word list and non-zero duration,
unfolded. -/
theorem analyze_pacing_of_ne (words : List WordMetadata) (d : ℚ)
    (hw : words ≠ []) (hd : d ≠ 0) :
    analyze_pacing words d
      = { pacing_wpm := rintHE ((words.length : ℚ) / (d / 60))
          pacing_feedback :=
            if rintHE ((words.length : ℚ) / (d / 60)) < SLOW_WPM_THRESHOLD then
              "Your speaking pace is too slow. Try to speak a bit faster."
            else if FAST_WPM_THRESHOLD < rintHE ((words.length : ℚ) / (d / 60)) then
              "Your speaking pace is too fast. Try to slow down a bit."
            else "Your speaking pace is appropriate." } := by
  unfold analyze_pacing
  rw [if_neg]
  simp [List.isEmpty_iff, hw, hd]

/-- C6: analyze_pacing is guarded against division by zero: empty words
or zero duration yield wpm 0 and the explanatory string; otherwise
wpm = round(word_count / (duration / 60)) is non-negative, with the
feedback tier chosen by the 90/150 thresholds. -/
theorem C6_pacing_guarded :
    ∀ (words : List WordMetadata) (audio_duration : ℚ),
      0 ≤ audio_duration →
      ((words = [] ∨ audio_duration = 0) →
        analyze_pacing words audio_duration
          = { pacing_wpm := 0, pacing_feedback := "Unable to calculate pacing." })
      ∧ (words ≠ [] → audio_duration ≠ 0 →
          (analyze_pacing words audio_duration).pacing_wpm
              = rintHE ((words.length : ℚ) / (audio_duration / 60))
          ∧ 0 ≤ (analyze_pacing words audio_duration).pacing_wpm
          ∧ (analyze_pacing words audio_duration).pacing_feedback
              = (if (analyze_pacing words audio_duration).pacing_wpm < 90 then
                    "Your speaking pace is too slow. Try to speak a bit faster."
                 else if 150 < (analyze_pacing words audio_duration).pacing_wpm then
                    "Your speaking pace is too fast. Try to slow down a bit."
                 else "Your speaking pace is appropriate.")) := by
  intro words d hd
  constructor
  · rintro (h | h) <;> simp [analyze_pacing, h]
  · intro hw hd0
    rw [analyze_pacing_of_ne words d hw hd0]
    refine ⟨rfl, ?_, rfl⟩
    exact rintHE_nonneg _ (div_nonneg (Nat.cast_nonneg _) (div_nonneg hd (by norm_num)))

/-- C6 witness: the two-word, 1.2-second example evaluates through the
theorem. -/
theorem C6_pacing_guarded_witness :
    (0 : ℚ) ≤ 12/10
    ∧ ((analyze_pacing [⟨"a", 0, 3/10, 9/10⟩, ⟨"b", 9/10, 12/10, 6/10⟩] (12/10)).pacing_wpm
          = rintHE ((2 : ℚ) / (12/10 / 60))
        ∧ 0 ≤ (analyze_pacing [⟨"a", 0, 3/10, 9/10⟩, ⟨"b", 9/10, 12/10, 6/10⟩] (12/10)).pacing_wpm) :=
  ⟨by norm_num,
    ((C6_pacing_guarded [⟨"a", 0, 3/10, 9/10⟩, ⟨"b", 9/10, 12/10, 6/10⟩] (12/10)
        (by norm_num)).2 (by decide) (by norm_num)).1,
    (((C6_pacing_guarded [⟨"a", 0, 3/10, 9/10⟩, ⟨"b", 9/10, 12/10, 6/10⟩] (12/10)
        (by norm_num)).2 (by decide) (by norm_num)).2).1⟩

/-- C7: process_audio_task deletes the uploaded file on every exit path:
for every environment (any combination of stage outcomes, success or
exception) the file no longer exists after the task, and the body
outcome is passed through unchanged. -/
theorem C7_artifact_always_deleted :
    ∀ (env : TaskEnv) (file_exists : Bool),
      (process_audio_task env file_exists).2 = false
      ∧ (process_audio_task env file_exists).1 = process_audio_body env := by
  intro env file_exists
  cases file_exists <;> exact ⟨rfl, rfl⟩

/-- C8: parse_transcription_result converts the start and end of every word
and the overall duration from milliseconds to seconds by dividing by
1000, maps provider fields text/start/end/confidence to the canonical
word shape, and yields audio_duration_sec = 0 when the provider result
lacks the duration field. -/
theorem C8_parse_millis_to_seconds :
    ∀ (result : ProviderResult) (i : ℕ),
      (parse_transcription_result result).transcript = result.text
      ∧ (parse_transcription_result result).words[i]?
          = (result.words[i]?).map (fun w =>
              { word := w.text, start := w.start / 1000, «end» := w.«end» / 1000
                confidence := w.confidence })
      ∧ (parse_transcription_result result).audio_duration_sec
          = (result.audio_duration.getD 0) / 1000
      ∧ (result.audio_duration = none →
          (parse_transcription_result result).audio_duration_sec = 0) := by
  intro result i
  refine ⟨rfl, ?_, rfl, ?_⟩
  · simp [parse_transcription_result]
  · intro h
    simp [parse_transcription_result, h]

/-- C8 witness: a provider result with no audio_duration parses to
duration 0. -/
theorem C8_parse_millis_to_seconds_witness :
    (parse_transcription_result
        { text := "hi", words := [⟨"hi", 500, 1000, 9/10⟩], audio_duration := none
          : ProviderResult }).audio_duration_sec = 0 :=
  (C8_parse_millis_to_seconds
      { text := "hi", words := [⟨"hi", 500, 1000, 9/10⟩], audio_duration := none } 0).2.2.2 rfl

/-- C9: a failure of the generative-text capability makes
generate_feedback return the fixed static fallback string instead of
propagating the error. -/
theorem C9_feedback_fallback :
    ∀ (generate : String → Except String String)
      (pronunciation : PronunciationResponse) (pacing : PacingResponse)
      (pauses : PauseResponse) (e : String),
      generate (feedback_prompt pronunciation pacing pauses) = Except.error e →
      generate_feedback generate pronunciation pacing pauses = FALLBACK_FEEDBACK := by
  intro g pronunciation pacing pauses e h
  simp [generate_feedback, h]

/-- C9 witness: an always-failing capability yields the fallback string. -/
theorem C9_feedback_fallback_witness :
    generate_feedback (fun _ => Except.error "outage")
      { pronunciation_score := 75, mispronounced_words := [] }
      { pacing_wpm := 100, pacing_feedback := "Your speaking pace is appropriate." }
      { pause_count := 0, total_pause_time_sec := 0
        pause_feedback := "Great! Your speech flows smoothly without long pauses." }
      = FALLBACK_FEEDBACK :=
  C9_feedback_fallback (fun _ => Except.error "outage") _ _ _ "outage" rfl

/-- analyze_pauses on a word list of length at least 2, unfolded. -/
theorem analyze_pauses_of_two_le (words : List WordMetadata)
    (h : 2 ≤ words.length) :
    analyze_pauses words
      = { pause_count := ((adjacentGaps words).filter (fun g => PAUSE_THRESHOLD < g)).length
          total_pause_time_sec :=
            round2 ((adjacentGaps words).filter (fun g => PAUSE_THRESHOLD < g)).sum
          pause_feedback :=
            if ((adjacentGaps words).filter (fun g => PAUSE_THRESHOLD < g)).length = 0 then
              "Great! Your speech flows smoothly without long pauses."
            else if ((adjacentGaps words).filter (fun g => PAUSE_THRESHOLD < g)).length ≤ 2 then
              "Good fluency with minimal pauses."
            else if ((adjacentGaps words).filter (fun g => PAUSE_THRESHOLD < g)).length ≤ 4 then
              "Try to reduce long pauses to improve fluency."
            else
              "Your speech has many long pauses. Practice speaking more continuously." } := by
  unfold analyze_pauses
  rw [if_neg (by omega)]

/-- C4: for at least 2 words, the gap of each adjacent pair (i, i+1) is
words[i+1].start − words[i].end; a pair is a pause iff its gap exceeds
0.5; the result carries the count of qualifying pauses, their sum
rounded to 2 decimals, and the feedback tier selected by the count; for
fewer than 2 words the insufficient-data result is returned. -/
theorem C4_pause_analysis :
    ∀ (words : List WordMetadata),
      (2 ≤ words.length →
        (analyze_pauses words).pause_count
            = ((List.zipWith (fun a b => b.start - a.«end») words words.tail).filter
                (fun g => (1/2 : ℚ) < g)).length
        ∧ (analyze_pauses words).total_pause_time_sec
            = round2 ((List.zipWith (fun a b => b.start - a.«end») words words.tail).filter
                (fun g => (1/2 : ℚ) < g)).sum
        ∧ (analyze_pauses words).pause_feedback
            = (if (analyze_pauses words).pause_count = 0 then
                  "Great! Your speech flows smoothly without long pauses."
               else if (analyze_pauses words).pause_count ≤ 2 then
                  "Good fluency with minimal pauses."
               else if (analyze_pauses words).pause_count ≤ 4 then
                  "Try to reduce long pauses to improve fluency."
               else
                  "Your speech has many long pauses. Practice speaking more continuously."))
      ∧ (words.length < 2 →
          analyze_pauses words
            = { pause_count := 0, total_pause_time_sec := 0
                pause_feedback := "Insufficient data for pause analysis." }) := by
  intro words
  constructor
  · intro h2
    rw [analyze_pauses_of_two_le words h2, adjacentGaps_eq_zipWith]
    exact ⟨rfl, rfl, rfl⟩
  · intro hlt
    unfold analyze_pauses
    rw [if_pos hlt]

/-- C4 witness: the two-word example with one 0.6-second gap evaluates
through the theorem. -/
theorem C4_pause_analysis_witness :
    2 ≤ ([⟨"a", 0, 3/10, 9/10⟩, ⟨"b", 9/10, 12/10, 6/10⟩] : List WordMetadata).length
    ∧ (analyze_pauses [⟨"a", 0, 3/10, 9/10⟩, ⟨"b", 9/10, 12/10, 6/10⟩]).pause_count
        = ((List.zipWith (fun a b => b.start - a.«end»)
              ([⟨"a", 0, 3/10, 9/10⟩, ⟨"b", 9/10, 12/10, 6/10⟩] : List WordMetadata)
              ([⟨"b", 9/10, 12/10, 6/10⟩] : List WordMetadata)).filter
            (fun g => (1/2 : ℚ) < g)).length :=
  ⟨by decide,
    ((C4_pause_analysis [⟨"a", 0, 3/10, 9/10⟩, ⟨"b", 9/10, 12/10, 6/10⟩]).1 (by decide)).1⟩

/-- A list whose members all exceed one half sums to at least half its
length. -/
theorem half_length_le_sum (l : List ℚ) (h : ∀ x ∈ l, (1/2 : ℚ) < x) :
    (l.length : ℚ) * (1/2) ≤ l.sum := by
  induction l with
  | nil => simp
  | cons x xs ih =>
    have hx : (1/2 : ℚ) < x := h x (List.mem_cons_self x xs)
    have hxs : (xs.length : ℚ) * (1/2) ≤ xs.sum :=
      ih (fun y hy => h y (List.mem_cons_of_mem x hy))
    simp only [List.length_cons, List.sum_cons]
    push_cast
    linarith

/-- round2 never drops below a half-integer lower bound. -/
theorem half_le_round2 (k : ℕ) (q : ℚ) (h : (k : ℚ) * (1/2) ≤ q) :
    (k : ℚ) * (1/2) ≤ round2 q := by
  have h1 : ((50 * k : ℤ) : ℚ) ≤ 100 * q := by push_cast; linarith
  have h2 : (50 * k : ℤ) ≤ ⌊(100 * q : ℚ)⌋ := Int.le_floor.mpr h1
  have h3 : (50 * k : ℤ) ≤ rintHE (100 * q) := le_trans h2 (floor_le_rintHE _)
  have h4 : ((50 * k : ℤ) : ℚ) / 100 ≤ (rintHE (100 * q) : ℚ) / 100 := by
    apply div_le_div_of_nonneg_right ?_ (by norm_num)
    exact_mod_cast h3
  calc (k : ℚ) * (1/2) = ((50 * k : ℤ) : ℚ) / 100 := by push_cast; ring
    _ ≤ (rintHE (100 * q) : ℚ) / 100 := h4
    _ = round2 q := rfl

/-- C10: analyze_pauses never reports a negative pause metric, even for
overlapping or out-of-order timings: the total pause time is at least
half the pause count (each counted gap exceeds the 0.5 threshold) and
both outputs are non-negative. -/
theorem C10_pause_metrics_nonneg :
    ∀ (words : List WordMetadata),
      (1/2 : ℚ) * (analyze_pauses words).pause_count
          ≤ (analyze_pauses words).total_pause_time_sec
      ∧ 0 ≤ (analyze_pauses words).total_pause_time_sec
      ∧ 0 ≤ ((analyze_pauses words).pause_count : ℤ) := by
  intro words
  by_cases h : words.length < 2
  · unfold analyze_pauses
    rw [if_pos h]
    norm_num
  · rw [analyze_pauses_of_two_le words (by omega)]
    set pauses := (adjacentGaps words).filter (fun g => PAUSE_THRESHOLD < g) with hp
    have hmem : ∀ x ∈ pauses, (1/2 : ℚ) < x := by
      intro x hx
      have := List.of_mem_filter hx
      simpa [PAUSE_THRESHOLD] using this
    have hsum : (pauses.length : ℚ) * (1/2) ≤ pauses.sum := half_length_le_sum pauses hmem
    have hround : (pauses.length : ℚ) * (1/2) ≤ round2 pauses.sum :=
      half_le_round2 pauses.length pauses.sum hsum
    have hcount : (0 : ℚ) ≤ (pauses.length : ℚ) * (1/2) := by positivity
    refine ⟨?_, ?_, ?_⟩
    · simpa [mul_comm] using hround
    · exact le_trans hcount hround
    · exact_mod_cast Nat.zero_le _

/-- C2: during upload, a transient ReadError on attempt k < 2 is retried
after sleeping exactly 2^k seconds; three consecutive transient failures
exhaust the budget and fail with the exhaustion error wrapping the last
underlying message, having slept 1s then 2s; any non-transient failure —
including the 401/413/429 responses and a response missing the
upload_url field — propagates immediately without consuming a retry or
sleeping. -/
theorem C2_upload_retry_policy :
    ∀ (replies : ℕ → HttpUploadReply),
      (∀ (fuel attempt : ℕ) (sleeps : List ℕ) (msg : String),
          attempt < max_retries - 1 →
          upload_file true (replies attempt) = UploadOutcome.transientReadError msg →
          upload_file_with_retry_aux true replies (fuel + 1) attempt sleeps
            = upload_file_with_retry_aux true replies fuel (attempt + 1)
                (2 ^ attempt :: sleeps))
      ∧ (∀ (m0 m1 m2 : String),
          upload_file true (replies 0) = UploadOutcome.transientReadError m0 →
          upload_file true (replies 1) = UploadOutcome.transientReadError m1 →
          upload_file true (replies 2) = UploadOutcome.transientReadError m2 →
          upload_file_with_retry true replies
            = ⟨Except.error ("File upload failed after " ++ toString max_retries
                ++ " attempts: " ++ m2), [1, 2]⟩)
      ∧ (∀ (k : ℕ) (msg : String),
          k < max_retries →
          (∀ i, i < k → ∃ m, upload_file true (replies i) = UploadOutcome.transientReadError m) →
          upload_file true (replies k) = UploadOutcome.failure msg →
          upload_file_with_retry true replies
            = ⟨Except.error msg, (List.range k).map (fun i => 2 ^ i)⟩)
      ∧ (∀ (body : String) (upload_url : Option String),
          upload_file true (HttpUploadReply.response 401 body upload_url)
              = UploadOutcome.failure "File upload error: Invalid AssemblyAI API key"
          ∧ upload_file true (HttpUploadReply.response 413 body upload_url)
              = UploadOutcome.failure "File upload error: File too large for AssemblyAI"
          ∧ upload_file true (HttpUploadReply.response 429 body upload_url)
              = UploadOutcome.failure
                  "File upload error: Rate limit exceeded - please try again later"
          ∧ upload_file true (HttpUploadReply.response 200 body none)
              = UploadOutcome.failure
                  "File upload error: No upload URL returned from AssemblyAI") := by
  intro replies
  refine ⟨?_, ?_, ?_, ?_⟩
  · intro fuel attempt sleeps msg hlt hup
    have hne : attempt ≠ max_retries - 1 := by omega
    simp [upload_file_with_retry_aux, hup, hne]
  · intro m0 m1 m2 h0 h1 h2
    simp [upload_file_with_retry, upload_file_with_retry_aux, max_retries, h0, h1, h2]
  · intro k msg hk htrans hfail
    have hk3 : k < 3 := by simpa [max_retries] using hk
    interval_cases k
    · simp [upload_file_with_retry, upload_file_with_retry_aux, max_retries, hfail]
    · obtain ⟨m, hm⟩ := htrans 0 (by omega)
      simp [upload_file_with_retry, upload_file_with_retry_aux, max_retries, hm, hfail,
        List.range_succ]
    · obtain ⟨m, hm⟩ := htrans 0 (by omega)
      obtain ⟨m', hm'⟩ := htrans 1 (by omega)
      simp [upload_file_with_retry, upload_file_with_retry_aux, max_retries, hm, hm', hfail,
        List.range_succ]
  · intro body upload_url
    exact ⟨rfl, rfl, rfl, rfl⟩

/-- C2 witness: three consecutive read errors exhaust the retry budget
with backoff delays 1s then 2s and the wrapping error message. -/
theorem C2_upload_retry_policy_witness :
    upload_file_with_retry true (fun _ => HttpUploadReply.readError "connection reset")
      = ⟨Except.error ("File upload failed after " ++ toString max_retries
          ++ " attempts: " ++ "connection reset"), [1, 2]⟩ :=
  (C2_upload_retry_policy (fun _ => HttpUploadReply.readError "connection reset")).2.1
    "connection reset" "connection reset" "connection reset" rfl rfl rfl

/-- Skipping k consecutive non-terminal (queued or processing) replies in
the poll loop: each issues one request, sleeps 1 second, and decrements
the remaining attempt budget. -/
theorem poll_transcript_aux_skip (replies : ℕ → PollReply) :
    ∀ (k fuel requests : ℕ) (sleeps : List ℕ), k ≤ fuel →
      (∀ i, i < k → replies (requests + i) = PollReply.queued
          ∨ replies (requests + i) = PollReply.processing) →
      poll_transcript_aux replies fuel requests sleeps
        = poll_transcript_aux replies (fuel - k) (requests + k)
            (List.replicate k 1 ++ sleeps) := by
  intro k
  induction k with
  | zero => intro fuel requests sleeps _ _; simp
  | succ k ih =>
    intro fuel requests sleeps hk hnt
    obtain ⟨f, rfl⟩ : ∃ f, fuel = f + 1 := ⟨fuel - 1, by omega⟩
    have h0 := hnt 0 (by omega)
    rw [Nat.add_zero] at h0
    have step : poll_transcript_aux replies (f + 1) requests sleeps
        = poll_transcript_aux replies f (requests + 1) (1 :: sleeps) := by
      rcases h0 with h | h <;> simp [poll_transcript_aux, h]
    rw [step, ih f (requests + 1) (1 :: sleeps) (by omega) ?_]
    · congr 1
      · omega
      · omega
      · simp [List.replicate_succ']
    · intro i hi
      have h := hnt (i + 1) (by omega)
      rw [show requests + (i + 1) = requests + 1 + i by omega] at h
      exact h

/-- C3: the poll loop issues at most 60 status requests with a fixed
1-second sleep after each non-terminal response: 59 non-terminal replies
followed by completed on the 60th request return the full provider
result; 60 consecutive non-terminal replies exhaust the budget with the
transcription-timeout error after exactly 60 requests, never a 61st. -/
theorem C3_poll_loop_bounded :
    ∀ (replies : ℕ → PollReply),
      ((∀ i, i < 59 → replies i = PollReply.queued ∨ replies i = PollReply.processing) →
        ∀ result, replies 59 = PollReply.completed result →
          poll_transcript replies = ⟨Except.ok result, 60, List.replicate 59 1⟩)
      ∧ ((∀ i, i < 60 → replies i = PollReply.queued ∨ replies i = PollReply.processing) →
          poll_transcript replies
            = ⟨Except.error "Transcription timeout - process took too long", 60,
                List.replicate 60 1⟩) := by
  intro replies
  constructor
  · intro hnt result hcomp
    unfold poll_transcript
    rw [poll_transcript_aux_skip replies 59 poll_max_attempts 0 [] (by norm_num [poll_max_attempts])
        (by simpa using hnt)]
    simp [poll_transcript_aux, poll_max_attempts, hcomp, List.reverse_replicate]
  · intro hnt
    unfold poll_transcript
    rw [poll_transcript_aux_skip replies 60 poll_max_attempts 0 [] (by norm_num [poll_max_attempts])
        (by simpa using hnt)]
    simp [poll_transcript_aux, poll_max_attempts, List.reverse_replicate]

/-- C3 witness: 59 processing replies then completed on the 60th request
return the provider result after exactly 60 requests. -/
theorem C3_poll_loop_bounded_witness :
    poll_transcript (fun i => if i < 59 then PollReply.processing
        else PollReply.completed { text := "done", words := [], audio_duration := none })
      = ⟨Except.ok { text := "done", words := [], audio_duration := none }, 60,
          List.replicate 59 1⟩ :=
  (C3_poll_loop_bounded (fun i => if i < 59 then PollReply.processing
      else PollReply.completed { text := "done", words := [], audio_duration := none })).1
    (by intro i hi; right; simp [hi])
    { text := "done", words := [], audio_duration := none }
    (by norm_num)

end VoiceEval
